import Mathlib

/-!
# CHEQR attendance core: a shallow embedding

This file embeds the QR-code attendance core of the CHEQR mobile app:
the lecturer-side token generator and single-live-token guard, the
student-side scan validation chain, the recent-scan counter used by the
session poller, and the ISO-8601 wire format of the token payload.

Timestamps are modelled as milliseconds since the Unix epoch (`Int` where
device clocks are compared, `Nat` where calendar formatting is involved),
matching the JavaScript `Date` representation used by the source.  JSON
objects are modelled as records with `Option` fields: `none` plays the
role of an absent field (JavaScript `undefined`).
-/

namespace Cheqr

/-- A course as fetched from the directory API: identifier, display codes,
and the enrollment roster (`students` may be absent, as in the source's
`course.students &&` guard). -/
structure Course where
  _id : String
  courseCode : String
  courseName : String
  students : Option (List String)
deriving Repr, DecidableEq

/-- The object obtained by `JSON.parse` of a scanned QR string.  Every
field is optional: a syntactically valid JSON object need not carry any
of the token fields.  Timestamp fields hold the parsed millisecond value
(`new Date(s).getTime()`); `none` models an absent or empty field. -/
structure ScannedPayload where
  courseId : Option String
  courseCode : Option String
  courseName : Option String
  generatedAt : Option Int
  expiresAt : Option Int
deriving Repr, DecidableEq

/-- A raw camera scan: either text that `JSON.parse` rejects, or text
that parses to a JSON object with the optional token fields. -/
inductive RawScan where
  | notJson : RawScan
  | json : ScannedPayload → RawScan
deriving Repr, DecidableEq

/-- Outcome of the client-side validation chain in `handleBarCodeScanned`
(src/app/student-dashboard.tsx).  `accepted` means every client gate
passed and the scan was POSTed to the attendance ledger. -/
inductive ScanOutcome where
  | invalidFormat : ScanOutcome
  | noCourseContext : ScanOutcome
  | wrongCourse : ScanOutcome
  | notEnrolled : ScanOutcome
  | expired : ScanOutcome
  | accepted : ScanOutcome
deriving Repr, DecidableEq

/-- The enrollment test of `handleBarCodeScanned`:
`courses.some(course => course._id === qrDataObj.courseId &&
course.students && course.students.includes(currentUserId))`. -/
def isEnrolled (courses : List Course) (qrCourseId : Option String)
    (currentUserId : String) : Bool :=
  courses.any fun course =>
    some course._id == qrCourseId &&
      (match course.students with
       | some ss => ss.contains currentUserId
       | none => false)

/-- The ordered client validation chain of `handleBarCodeScanned`
(src/app/student-dashboard.tsx lines 121-199): JSON decode, course
context, strict course-id comparison, enrollment, then expiry
(`currentTime > expiryTime`, run only when the `expiresAt` field is
present), and finally the POST of the scan. -/
def handleBarCodeScanned (raw : RawScan) (currentScanningCourse : Option Course)
    (courses : List Course) (currentUserId : String) (currentTime : Int) :
    ScanOutcome :=
  match raw with
  | .notJson => .invalidFormat
  | .json qrDataObj =>
    match currentScanningCourse with
    | none => .noCourseContext
    | some c =>
      if qrDataObj.courseId ≠ some c._id then .wrongCourse
      else if ¬ isEnrolled courses qrDataObj.courseId currentUserId then .notEnrolled
      else
        match qrDataObj.expiresAt with
        | some expiryTime =>
          if currentTime > expiryTime then .expired else .accepted
        | none => .accepted

/-- Whether an outcome of the chain submits a scan to the ledger: only
the final `fetch(.../attendance/scan, {method: POST, ...})` does. -/
def submitsScan : ScanOutcome → Bool
  | .accepted => true
  | _ => false

/-- Model of `getPhilippineTime` (lecturer dashboard): the device UTC clock
shifted forward by eight hours, `new Date(utcTimeMs + 8*60*60*1000)`. -/
def getPhilippineTime (utcTimeMs : Int) : Int :=
  utcTimeMs + 8 * 60 * 60 * 1000

/-- The token payload built by the lecturer dashboard's `generateQRData`
before JSON serialization. -/
structure QRPayload where
  courseId : String
  courseCode : String
  courseName : String
  generatedAt : Int
  expiresAt : Int
deriving Repr, DecidableEq

/-- Model of `generateQRData(course)` (lecturer dashboard): stamps the payload
with `phTime = getPhilippineTime()` and `expiryTime = phTime + 60*60*1000`. -/
def generateQRData (course : Course) (utcNowMs : Int) : QRPayload :=
  let phTime := getPhilippineTime utcNowMs
  let expiryTime := phTime + 60 * 60 * 1000
  { courseId := course._id
    courseCode := course.courseCode
    courseName := course.courseName
    generatedAt := phTime
    expiresAt := expiryTime }

/-- The payload a student device obtains by `JSON.parse` of a QR string
produced from a `QRPayload`: all five fields present. -/
def decodedOf (p : QRPayload) : ScannedPayload :=
  { courseId := some p.courseId
    courseCode := some p.courseCode
    courseName := some p.courseName
    generatedAt := some p.generatedAt
    expiresAt := some p.expiresAt }

/-- One scan entry inside an attendance record: who scanned and when
(milliseconds). -/
structure Scan where
  studentId : String
  scannedAt : Int
deriving Repr, DecidableEq

/-- One attendance record (session) as returned by
`GET /attendance/course/:id`: the QR string it was spawned from, its
generation and expiry instants, and the scans collected so far. -/
structure AttendanceRecord where
  qrCodeData : String
  generatedAt : Int
  expiresAt : Int
  scannedBy : List Scan
deriving Repr, DecidableEq

/-- Model of `checkExistingQRCode` (lecturer dashboard).  Its ledger
fetch can fail — `!response.ok` raises and a network error throws — and
the `catch` block then returns `false`, reported here as `fetchResult =
none` yielding no valid record.  On a successful fetch (`fetchResult =
some records`), find a record with `new Date(record.expiresAt) >
phTime`. -/
def checkExistingQRCode (fetchResult : Option (List AttendanceRecord))
    (phNow : Int) : Option AttendanceRecord :=
  match fetchResult with
  | none => none
  | some records => records.find? fun record => record.expiresAt > phNow

/-- Model of `handleGenerateQR` followed by `handleConfirmGenerateQR`
(lecturer dashboard): if `checkExistingQRCode` reports a still-valid
record, display it and mint nothing; otherwise mint `newRec` (the
backend's `POST /attendance/generate-qr`) and add it to the course's
records.  `fetchOk` says whether the existence-check fetch succeeded: a
successful fetch reads the true record list, a failed one makes the
guard report no valid record, so minting proceeds regardless of the
ledger.  Returns the new record list and the token shown to the
lecturer. -/
def handleGenerateQR (records : List AttendanceRecord) (phNow : Int)
    (newRec : AttendanceRecord) (fetchOk : Bool) :
    List AttendanceRecord × AttendanceRecord :=
  match checkExistingQRCode (if fetchOk then some records else none) phNow with
  | some validRecord => (records, validRecord)
  | none => (records ++ [newRec], newRec)

/-- Number of unexpired (`expiresAt > t`) records at instant `t`. -/
def countValid (records : List AttendanceRecord) (t : Int) : Nat :=
  (records.filter fun record => record.expiresAt > t).length

/-- Run a sequence of generate requests whose existence-check fetches
all succeed, each request given as (request instant, record the backend
would mint). -/
def runGenerates (records : List AttendanceRecord)
    (reqs : List (Int × AttendanceRecord)) : List AttendanceRecord :=
  reqs.foldl (fun s p => (handleGenerateQR s p.1 p.2 true).1) records

/-- The badge counter inlined in `handleNewScan` (lecturer dashboard):
`records.reduce(...)` adds `record.scannedBy.length` whenever
`phTime - record.generatedAt <= 5*60*1000`. -/
def countRecentScans (records : List AttendanceRecord) (phTimeMs : Int) : Nat :=
  records.foldl
    (fun count record =>
      if phTimeMs - record.generatedAt ≤ 5 * 60 * 1000 then
        count + record.scannedBy.length
      else count)
    0

/-- The counter as the spec's words describe it (for comparison with
`countRecentScans`): sum, across all sessions, of the scans whose own
`scannedAt` lies within the window `[now - window, now]`. -/
def specCountRecentScans (records : List AttendanceRecord)
    (nowMs window : Int) : Nat :=
  records.foldl
    (fun count record =>
      count + (record.scannedBy.filter
        (fun s => nowMs - window ≤ s.scannedAt && s.scannedAt ≤ nowMs)).length)
    0

/-- Mutable state of the lecturer-side session poller: the badge count
(`newScans`) and `lastCheckTime.current`. -/
structure PollerState where
  newScans : Nat
  lastCheckTime : Int
deriving Repr, DecidableEq

/-- One tick of `handleNewScan` (lecturer dashboard).  `now` is the tick
instant, `fetchResult` the outcome of the ledger fetch (`none` for a
failed or non-ok response), `phTimeMs` the shifted clock read after the
fetch resolves.  Returns the new state and whether the tick performed a
ledger fetch. -/
def handleNewScan (st : PollerState) (now : Int)
    (fetchResult : Option (List AttendanceRecord)) (phTimeMs : Int) :
    PollerState × Bool :=
  if now - st.lastCheckTime < 3000 then
    (st, false)
  else
    match fetchResult with
    | none => (st, true)
    | some records =>
      ({ newScans := countRecentScans records phTimeMs, lastCheckTime := now },
       true)

/-! ## Concrete fixtures used by witnesses and counterexamples. -/

/-- A student identifier used in concrete instances. -/
def s1 : String := "student-1"

/-- A concrete course with `s1` enrolled. -/
def courseA : Course :=
  { _id := "course-A", courseCode := "CS101", courseName := "IntroCS",
    students := some [s1] }

/-- A second concrete course, distinct from `courseA`. -/
def courseB : Course :=
  { _id := "course-B", courseCode := "MATH201", courseName := "Calculus",
    students := some [s1] }

/-- The payload of a fully-populated token for a course. -/
def payloadFor (c : Course) (issuedAt expiresAt : Int) : ScannedPayload :=
  { courseId := some c._id
    courseCode := some c.courseCode
    courseName := some c.courseName
    generatedAt := some issuedAt
    expiresAt := some expiresAt }

/-- The payload decoded from the JSON text of an empty object: parsing
succeeds, yet none of the five token fields is present. -/
def emptyPayload : ScannedPayload :=
  { courseId := none, courseCode := none, courseName := none,
    generatedAt := none, expiresAt := none }

/-! ## Theorems -/

/-- C3: a well-formed token whose `courseId` differs from the selected
course is rejected with `wrongCourse`, for every enrollment list, every
student, and every scan instant — the course-match gate fires before the
enrollment and expiry gates. -/
theorem course_match_gate_fires_first (q : ScannedPayload) (c : Course)
    (courses : List Course) (uid : String) (now : Int)
    (hmismatch : q.courseId ≠ some c._id) :
    handleBarCodeScanned (.json q) (some c) courses uid now = .wrongCourse := by
  simp [handleBarCodeScanned, hmismatch]

/-- Witness for C3: a token for `courseA`, already expired and scanned by
a student enrolled in both courses, is still rejected as `wrongCourse`
when validated against `courseB`. -/
theorem course_match_gate_fires_first_witness :
    handleBarCodeScanned (.json (payloadFor courseA 0 3600000)) (some courseB)
      [courseA, courseB] s1 7200000 = .wrongCourse :=
  course_match_gate_fires_first _ _ _ _ _ (by decide)

/-- C2: for every decoded token carrying an `expiresAt` instant `e`:
(1) while `now ≤ e` the chain never rejects for expiry, whatever the
other gates do; (2) when the course and enrollment gates pass, the chain
rejects with `expired` exactly when `now > e`; (3) at the boundary
instant `now = e` the scan is accepted. -/
theorem expiry_gate_boundary (q : ScannedPayload) (c : Course)
    (courses : List Course) (uid : String) (now e : Int)
    (hexp : q.expiresAt = some e) :
    (now ≤ e → handleBarCodeScanned (.json q) (some c) courses uid now ≠ .expired) ∧
    (q.courseId = some c._id → isEnrolled courses q.courseId uid = true →
      (handleBarCodeScanned (.json q) (some c) courses uid now = .expired ↔ now > e)) ∧
    (q.courseId = some c._id → isEnrolled courses q.courseId uid = true → now = e →
      handleBarCodeScanned (.json q) (some c) courses uid now = .accepted) := by
  refine ⟨?_, ?_, ?_⟩
  · intro hle
    simp only [handleBarCodeScanned, hexp]
    split
    · simp
    · split
      · simp
      · split
        · omega
        · simp
  · intro hmatch henr
    rw [hmatch] at henr
    have hform : handleBarCodeScanned (.json q) (some c) courses uid now =
        if now > e then .expired else .accepted := by
      simp [handleBarCodeScanned, hexp, hmatch, henr]
    rw [hform]
    by_cases h : now > e
    · simp [h]
    · simp [h]
  · intro hmatch henr hb
    rw [hmatch] at henr
    subst hb
    simp [handleBarCodeScanned, hexp, hmatch, henr]

/-- Witness for C2, at a concrete matching, enrolled configuration with
`e = 1000`: scanning at `now = 1000` (the boundary) is accepted, and
scanning at `now = 1001` is rejected as expired. -/
theorem expiry_gate_boundary_witness :
    handleBarCodeScanned (.json (payloadFor courseA 0 1000)) (some courseA)
        [courseA] s1 1000 = .accepted ∧
    handleBarCodeScanned (.json (payloadFor courseA 0 1000)) (some courseA)
        [courseA] s1 1001 = .expired :=
  ⟨(expiry_gate_boundary (payloadFor courseA 0 1000) courseA [courseA] s1 1000
      1000 (by decide)).2.2 (by decide) (by decide) (by decide),
   ((expiry_gate_boundary (payloadFor courseA 0 1000) courseA [courseA] s1 1001
      1000 (by decide)).2.1 (by decide) (by decide)).mpr (by decide)⟩

/-- C4: a course-matching, unexpired token scanned by a student who is
not in the enrollment set is rejected with `notEnrolled`, and no scan is
POSTed to the ledger. -/
theorem enrollment_gate_blocks_submission (q : ScannedPayload) (c : Course)
    (courses : List Course) (uid : String) (now e : Int)
    (hmatch : q.courseId = some c._id) (_hexp : q.expiresAt = some e)
    (_hunexpired : now ≤ e)
    (hnot : isEnrolled courses q.courseId uid = false) :
    handleBarCodeScanned (.json q) (some c) courses uid now = .notEnrolled ∧
    submitsScan (handleBarCodeScanned (.json q) (some c) courses uid now) = false := by
  rw [hmatch] at hnot
  have h : handleBarCodeScanned (.json q) (some c) courses uid now = .notEnrolled := by
    simp [handleBarCodeScanned, hmatch, hnot]
  exact ⟨h, by rw [h]; rfl⟩

/-- Witness for C4: a valid, unexpired `courseB` token scanned for
`courseB` by a student whose only enrollment is in `courseA`. -/
theorem enrollment_gate_blocks_submission_witness :
    handleBarCodeScanned (.json (payloadFor courseB 0 3600000)) (some courseB)
        [courseA] s1 5 = .notEnrolled ∧
    submitsScan (handleBarCodeScanned (.json (payloadFor courseB 0 3600000))
        (some courseB) [courseA] s1 5) = false :=
  enrollment_gate_blocks_submission (payloadFor courseB 0 3600000) courseB
    [courseA] s1 5 3600000 (by decide) (by decide) (by decide) (by decide)

/-- Counterexample to C5 as stated: the JSON text of an empty object
parses, so it passes the decode gate though it carries none of the five
token fields; the chain then rejects it as `wrongCourse`, not as
`invalidFormat`. -/
theorem decode_gate_passes_fieldless_payload :
    handleBarCodeScanned (.json emptyPayload) (some courseA) [courseA] s1 0
        = .wrongCourse ∧
    ScanOutcome.wrongCourse ≠ ScanOutcome.invalidFormat := by
  decide

/-- C5 amended: the decode gate rejects with `invalidFormat` exactly the
raw scans that fail JSON parsing, and it runs before every other check;
a successfully parsed payload proceeds to the later gates even when the
five token fields are missing. -/
theorem invalidFormat_iff_parse_failure (raw : RawScan) (cc : Option Course)
    (courses : List Course) (uid : String) (now : Int) :
    handleBarCodeScanned raw cc courses uid now = .invalidFormat ↔
      raw = .notJson := by
  cases raw with
  | notJson => simp [handleBarCodeScanned]
  | json q =>
    cases cc with
    | none => simp [handleBarCodeScanned]
    | some c =>
      simp only [handleBarCodeScanned]
      split
      · simp
      · split
        · simp
        · split
          · split <;> simp
          · simp

/-- C6: every payload minted by `generateQRData` satisfies
`expiresAt = generatedAt + 3600000` exactly, its `generatedAt` is the
generator clock's reading (`getPhilippineTime` of the device instant),
and hence `expiresAt > generatedAt`. -/
theorem generateQRData_expiry_arithmetic (course : Course) (utcNowMs : Int) :
    (generateQRData course utcNowMs).expiresAt
        = (generateQRData course utcNowMs).generatedAt + 3600000 ∧
    (generateQRData course utcNowMs).generatedAt = getPhilippineTime utcNowMs ∧
    (generateQRData course utcNowMs).expiresAt
        > (generateQRData course utcNowMs).generatedAt := by
  refine ⟨rfl, rfl, ?_⟩
  simp [generateQRData]

/-- C10: the minting clock is the device UTC clock shifted forward eight
hours, so a client-minted payload's `generatedAt` is `t + 8h` and its
`expiresAt` is `t + 9h` for a device instant `t`; since the student-side
expiry gate compares that `expiresAt` against the unshifted device clock,
a token decoded from such a payload is rejected as expired exactly when
more than nine hours have elapsed — it survives the client expiry check
for nine hours, not one. -/
theorem client_mint_expiry_skew (course : Course) (courses : List Course)
    (uid : String) (t d : Int) :
    (generateQRData course t).generatedAt = t + 8 * 3600000 ∧
    (generateQRData course t).expiresAt = t + 9 * 3600000 ∧
    (isEnrolled courses (some course._id) uid = true →
      (handleBarCodeScanned (.json (decodedOf (generateQRData course t)))
          (some course) courses uid (t + d) = .expired ↔ d > 9 * 3600000)) := by
  refine ⟨by simp [generateQRData, getPhilippineTime],
          by simp [generateQRData, getPhilippineTime]; omega, ?_⟩
  intro henr
  have hform : handleBarCodeScanned (.json (decodedOf (generateQRData course t)))
      (some course) courses uid (t + d) =
      if t + d > (generateQRData course t).expiresAt then .expired
      else .accepted := by
    simp [handleBarCodeScanned, decodedOf, generateQRData, henr]
  rw [hform]
  have hexp : (generateQRData course t).expiresAt = t + 9 * 3600000 := by
    simp [generateQRData, getPhilippineTime]; omega
  rw [hexp]
  by_cases h : d > 9 * 3600000
  · simp only [if_pos (by omega : t + d > t + 9 * 3600000)]
    simp
    omega
  · simp only [if_neg (by omega : ¬ t + d > t + 9 * 3600000)]
    simp
    omega

/-- Witness for C10: with the mint instant at `t = 0`, the student gate
still accepts the token nine hours less one millisecond after minting,
and rejects it as expired one millisecond past nine hours. -/
theorem client_mint_expiry_skew_witness :
    (generateQRData courseA 0).expiresAt = 0 + 9 * 3600000 ∧
    handleBarCodeScanned (.json (decodedOf (generateQRData courseA 0)))
        (some courseA) [courseA] s1 (0 + 32400001) = .expired :=
  ⟨(client_mint_expiry_skew courseA [courseA] s1 0 32400001).2.1,
   ((client_mint_expiry_skew courseA [courseA] s1 0 32400001).2.2
      (by decide)).mpr (by decide)⟩

/-- C9: on a poller tick at instant `now`, if less than the 3000 ms
throttle floor has elapsed since `lastCheckTime`, the tick performs no
ledger fetch and leaves the whole state (badge count and
`lastCheckTime`) unchanged; otherwise it fetches, and on a successful
fetch sets the badge to the recent-scan count and records `now` as the
new `lastCheckTime`. -/
theorem handleNewScan_throttle (st : PollerState) (now phTimeMs : Int)
    (fetchResult : Option (List AttendanceRecord))
    (records : List AttendanceRecord) :
    (now - st.lastCheckTime < 3000 →
      handleNewScan st now fetchResult phTimeMs = (st, false)) ∧
    (now - st.lastCheckTime ≥ 3000 →
      (handleNewScan st now fetchResult phTimeMs).2 = true ∧
      handleNewScan st now (some records) phTimeMs =
        ({ newScans := countRecentScans records phTimeMs,
           lastCheckTime := now }, true)) := by
  constructor
  · intro h
    simp [handleNewScan, h]
  · intro h
    have hn : ¬ now - st.lastCheckTime < 3000 := by omega
    constructor
    · cases fetchResult <;> simp [handleNewScan, hn]
    · simp [handleNewScan, hn]

/-- Witness for C9: a tick 2999 ms after the last check is skipped
outright; a tick 3000 ms after it with a successful empty fetch resets
the badge to zero and records the tick instant. -/
theorem handleNewScan_throttle_witness :
    handleNewScan ⟨7, 0⟩ 2999 (some []) 2999 = (⟨7, 0⟩, false) ∧
    handleNewScan ⟨7, 0⟩ 3000 (some []) 3000 =
      ({ newScans := 0, lastCheckTime := 3000 }, true) :=
  ⟨(handleNewScan_throttle ⟨7, 0⟩ 2999 2999 (some []) []).1 (by decide),
   ((handleNewScan_throttle ⟨7, 0⟩ 3000 3000 (some []) []).2 (by decide)).2⟩

/-- A session generated ten minutes ago whose single scan happened only
one minute ago (so the scan lies well inside a five-minute window even
though the session does not). -/
def staleSessionRecentScan : AttendanceRecord :=
  { qrCodeData := "qr-A", generatedAt := 0, expiresAt := 3600000,
    scannedBy := [{ studentId := s1, scannedAt := 540000 }] }

/-- Counterexample to C8 as stated: at `now = 600000` with a five-minute
window, one scan record has `scannedAt` inside `[now - window, now]`
(the spec-worded count is 1), yet the badge counter returns 0, because
it filters on the session's `generatedAt` instead of each scan's
`scannedAt`. -/
theorem countRecentScans_ignores_scannedAt :
    countRecentScans [staleSessionRecentScan] 600000 = 0 ∧
    specCountRecentScans [staleSessionRecentScan] 600000 300000 = 1 := by
  decide

/-- Folding the badge counter's step function from any accumulator just
shifts the count from accumulator zero. -/
theorem countRecentScans_foldl_shift (phTimeMs : Int)
    (records : List AttendanceRecord) (acc : Nat) :
    records.foldl
        (fun count record =>
          if phTimeMs - record.generatedAt ≤ 5 * 60 * 1000 then
            count + record.scannedBy.length
          else count) acc
      = acc + countRecentScans records phTimeMs := by
  induction records generalizing acc with
  | nil => simp [countRecentScans]
  | cons r rs ih =>
    simp only [countRecentScans, List.foldl_cons]
    by_cases h : phTimeMs - r.generatedAt ≤ 5 * 60 * 1000
    · rw [if_pos h, if_pos h, ih (acc + r.scannedBy.length),
          ih (0 + r.scannedBy.length)]
      omega
    · rw [if_neg h, if_neg h, ih acc, ih 0]
      omega

/-- Cons form of the badge counter. -/
theorem countRecentScans_cons (r : AttendanceRecord)
    (rs : List AttendanceRecord) (phTimeMs : Int) :
    countRecentScans (r :: rs) phTimeMs =
      (if phTimeMs - r.generatedAt ≤ 5 * 60 * 1000 then r.scannedBy.length
       else 0) + countRecentScans rs phTimeMs := by
  simp only [countRecentScans, List.foldl_cons]
  rw [countRecentScans_foldl_shift]
  simp only [countRecentScans]
  by_cases h : phTimeMs - r.generatedAt ≤ 5 * 60 * 1000
  · rw [if_pos h, if_pos h]
    omega
  · rw [if_neg h, if_neg h]

/-- C8 amended: the badge counter sums `scannedBy.length` over exactly
those sessions whose `generatedAt` lies within the trailing five-minute
window (`phTimeMs - generatedAt ≤ 300000`, with no lower bound); the
`scannedAt` instants of the individual scans play no role. -/
theorem countRecentScans_counts_by_session_age
    (records : List AttendanceRecord) (phTimeMs : Int) :
    countRecentScans records phTimeMs =
      ((records.filter fun r =>
          phTimeMs - r.generatedAt ≤ 5 * 60 * 1000).map
        fun r => r.scannedBy.length).sum := by
  induction records with
  | nil => simp [countRecentScans]
  | cons r rs ih =>
    rw [countRecentScans_cons]
    by_cases h : phTimeMs - r.generatedAt ≤ 5 * 60 * 1000
    · rw [if_pos h, List.filter_cons, if_pos (by simpa using h)]
      simp [ih]
    · rw [if_neg h, List.filter_cons, if_neg (by simpa using h)]
      simp [ih]

/-- Advancing the clock can only shrink the set of unexpired records. -/
theorem countValid_mono (records : List AttendanceRecord) (t t' : Int)
    (h : t ≤ t') : countValid records t' ≤ countValid records t := by
  induction records with
  | nil => simp [countValid]
  | cons r rs ih =>
    simp only [countValid, List.filter_cons] at ih ⊢
    by_cases h1 : r.expiresAt > t'
    · rw [if_pos (by simpa using h1),
          if_pos (by simp; omega)]
      simpa using ih
    · by_cases h2 : r.expiresAt > t
      · rw [if_neg (by simpa using h1), if_pos (by simpa using h2)]
        simp only [List.length_cons]
        omega
      · rw [if_neg (by simpa using h1), if_neg (by simpa using h2)]
        exact ih

/-- If the fetch succeeds and no record is valid, the guard's `find`
comes back empty, and conversely. -/
theorem checkExistingQRCode_eq_none (records : List AttendanceRecord)
    (phNow : Int) :
    checkExistingQRCode (some records) phNow = none ↔
      ∀ r ∈ records, ¬ r.expiresAt > phNow := by
  simp [checkExistingQRCode, List.find?_eq_none]

/-- One generate request with a successful existence-check fetch
preserves "at most one unexpired record" at its own instant. -/
theorem handleGenerateQR_preserves_single (records : List AttendanceRecord)
    (phNow : Int) (newRec : AttendanceRecord)
    (h : countValid records phNow ≤ 1) :
    countValid (handleGenerateQR records phNow newRec true).1 phNow ≤ 1 := by
  unfold handleGenerateQR
  rw [if_pos rfl]
  cases hfind : checkExistingQRCode (some records) phNow with
  | some r => simpa using h
  | none =>
    have hnone : ∀ r ∈ records, ¬ r.expiresAt > phNow :=
      (checkExistingQRCode_eq_none records phNow).mp hfind
    have h0 : countValid records phNow = 0 := by
      simp only [countValid, List.length_eq_zero, List.filter_eq_nil_iff]
      intro r hr
      simpa using hnone r hr
    simp only [countValid, List.filter_append, List.length_append]
    have : (records.filter fun record => record.expiresAt > phNow).length = 0 :=
      h0
    rw [this]
    cases hv : decide (newRec.expiresAt > phNow) <;>
      simp [List.filter, hv]

/-- A second record, freshly minted by the backend and still valid at
small instants. -/
def secondMintRecord : AttendanceRecord :=
  { qrCodeData := "qr-B", generatedAt := 3, expiresAt := 3600000,
    scannedBy := [] }

/-- Counterexample to C1 as stated: one unexpired record exists at
instant 5, yet a generate request whose existence-check fetch fails
(`!response.ok` or a network error, caught and turned into `false`)
mints anyway — generation is not refused, and afterwards two unexpired
records exist for the course at the same instant. -/
theorem failed_fetch_mints_second_live_token :
    countValid [staleSessionRecentScan] 5 = 1 ∧
    (handleGenerateQR [staleSessionRecentScan] 5 secondMintRecord false).1
      = [staleSessionRecentScan, secondMintRecord] ∧
    countValid
      (handleGenerateQR [staleSessionRecentScan] 5 secondMintRecord false).1
      5 = 2 := by
  decide

/-- C1 amended: the single-live-token discipline of `handleGenerateQR`,
conditional on every existence-check fetch succeeding.  First conjunct:
whenever an unexpired record exists and the fetch succeeds, the
operation refuses to mint — the record list is unchanged and the token
handed back is an existing, still-valid one.  Second conjunct: starting
from a state with at most one unexpired record, any sequence of
generate requests at nondecreasing instants whose fetches all succeed
leaves at most one unexpired record at the final instant.  (When a
fetch fails, the guard reports no valid token and minting proceeds, so
the discipline can be broken.) -/
theorem handleGenerateQR_single_live_token :
    (∀ (records : List AttendanceRecord) (phNow : Int)
        (newRec : AttendanceRecord),
      (∃ r ∈ records, r.expiresAt > phNow) →
        (handleGenerateQR records phNow newRec true).1 = records ∧
        (handleGenerateQR records phNow newRec true).2 ∈ records ∧
        (handleGenerateQR records phNow newRec true).2.expiresAt > phNow) ∧
    (∀ (reqs : List (Int × AttendanceRecord))
        (records : List AttendanceRecord) (t0 tEnd : Int),
      countValid records t0 ≤ 1 →
      List.Chain (· ≤ ·) t0 (reqs.map Prod.fst ++ [tEnd]) →
      countValid (runGenerates records reqs) tEnd ≤ 1) := by
  constructor
  · intro records phNow newRec hex
    obtain ⟨r, hr, hv⟩ := hex
    have hsome : ∃ v, checkExistingQRCode (some records) phNow = some v := by
      rcases hfind : checkExistingQRCode (some records) phNow with _ | v
      · exact absurd hv ((checkExistingQRCode_eq_none records phNow).mp hfind r hr)
      · exact ⟨v, rfl⟩
    obtain ⟨v, hv'⟩ := hsome
    have hmem : v ∈ records := by
      have := hv'
      simp only [checkExistingQRCode] at this
      exact List.mem_of_find?_eq_some this
    have hvalid : v.expiresAt > phNow := by
      have := hv'
      simp only [checkExistingQRCode] at this
      have := List.find?_some this
      simpa using this
    simp [handleGenerateQR, hv', hmem, hvalid]
  · intro reqs
    induction reqs with
    | nil =>
      intro records t0 tEnd h hchain
      simp only [List.map_nil, List.nil_append, List.chain_cons] at hchain
      exact le_trans (countValid_mono records t0 tEnd hchain.1) h
    | cons p rest ih =>
      intro records t0 tEnd h hchain
      simp only [List.map_cons, List.cons_append, List.chain_cons] at hchain
      obtain ⟨h01, hchain'⟩ := hchain
      have h1 : countValid records p.1 ≤ 1 :=
        le_trans (countValid_mono records t0 p.1 h01) h
      have h2 : countValid (handleGenerateQR records p.1 p.2 true).1 p.1 ≤ 1 :=
        handleGenerateQR_preserves_single records p.1 p.2 h1
      have := ih (handleGenerateQR records p.1 p.2 true).1 p.1 tEnd h2
      simp only [runGenerates, List.foldl_cons] at *
      exact this hchain'

/-- Witness for C1's amended theorem: with the fetch succeeding, a
generate request against a ledger holding one valid record refuses to
mint and returns that record; and from an empty ledger, two fetch-ok
generate requests within the same validity window leave at most one
unexpired record. -/
theorem handleGenerateQR_single_live_token_witness :
    ((handleGenerateQR [staleSessionRecentScan] 5 secondMintRecord true).1
        = [staleSessionRecentScan] ∧
      (handleGenerateQR [staleSessionRecentScan] 5
          secondMintRecord true).2 ∈ [staleSessionRecentScan] ∧
      (handleGenerateQR [staleSessionRecentScan] 5
          secondMintRecord true).2.expiresAt > 5) ∧
    countValid (runGenerates []
        [(0, staleSessionRecentScan), (1, secondMintRecord)]) 2 ≤ 1 :=
  ⟨handleGenerateQR_single_live_token.1 [staleSessionRecentScan] 5
      secondMintRecord ⟨staleSessionRecentScan, by decide, by decide⟩,
   handleGenerateQR_single_live_token.2
      [(0, staleSessionRecentScan), (1, secondMintRecord)] [] 0 2
      (by decide) (by norm_num [List.chain_cons])⟩

/-! ## The ISO-8601 wire format of timestamps.

The generator serializes its two `Date` values with
`Date.prototype.toISOString` and the student device recovers them with
`new Date(string)`.  Both are ECMAScript built-ins; they are modelled
here explicitly over nonnegative millisecond timestamps: the civil-date
conversion is the days/civil algorithm used by `Date` implementations
(proleptic Gregorian calendar), and the printer/parser work on the
`YYYY-MM-DDTHH:mm:ss.sssZ` layout that `toISOString` emits for years
up to 9999. -/

/-- Year-of-era from day-of-era, the core step of the civil-from-days
conversion. -/
def yoeOf (doe : Nat) : Nat :=
  (doe - doe / 1460 + doe / 36524 - doe / 146096) / 365

/-- Days from the start of an era to the start of a year of that era. -/
def ydOf (yoe : Nat) : Nat :=
  365 * yoe + yoe / 4 - yoe / 100

/-- Civil date (year, month, day) from days since the Unix epoch, for
nonnegative day counts (dates from 1970-01-01 on). -/
def civilFromDays (z : Nat) : Nat × Nat × Nat :=
  let era := (z + 719468) / 146097
  let doe := (z + 719468) % 146097
  let yoe := yoeOf doe
  let y := yoe + era * 400
  let doy := doe - ydOf yoe
  let mp := (5 * doy + 2) / 153
  let d := doy - (153 * mp + 2) / 5 + 1
  let m := if mp < 10 then mp + 3 else mp - 9
  (if m ≤ 2 then y + 1 else y, m, d)

/-- Days since the Unix epoch from a civil date (year, month, day), the
conversion a `Date` parser performs. -/
def daysFromCivil (y m d : Nat) : Nat :=
  let y' := if m ≤ 2 then y - 1 else y
  let era := y' / 400
  let yoe := y' % 400
  let doy := (153 * (if m > 2 then m - 3 else m + 9) + 2) / 5 + d - 1
  let doe := yoe * 365 + yoe / 4 - yoe / 100 + doy
  era * 146097 + doe - 719468

/-- One advance of the clock within an era never decreases the computed
year of era. -/
theorem yoeOf_step_mono (doe : Nat) (h : doe < 146096) :
    yoeOf doe ≤ yoeOf (doe + 1) := by
  unfold yoeOf
  omega

/-- Monotonicity of the year-of-era computation on a whole era. -/
theorem yoeOf_mono (a b : Nat) (hab : a ≤ b) (hb : b ≤ 146096) :
    yoeOf a ≤ yoeOf b := by
  induction b with
  | zero =>
    have ha : a = 0 := by omega
    rw [ha]
  | succ m ih =>
    rcases Nat.lt_succ_iff_lt_or_eq.mp (Nat.lt_succ_of_le hab) with h | h
    · exact le_trans (ih (by omega) (by omega)) (yoeOf_step_mono m (by omega))
    · rw [h]

/-- Boolean check of the year-boundary properties of `yoeOf` for one
year of an era: the conversion is exact at the first day of the year and
at the last day of the preceding year, years are at most 366 days long,
and year starts stay below the era's last year start. -/
def eraEdgeOk (y : Nat) : Bool :=
  yoeOf (ydOf y) == y &&
  (y == 0 || yoeOf (ydOf y - 1) == y - 1) &&
  ydOf (y + 1) ≤ ydOf y + 366 &&
  ydOf y ≤ 145731

/-- Balanced-recursion bounded checker: `allRange f fuel lo n` holds when
`f` holds on every point of `[lo, lo + n)`, provided `2 ^ fuel ≥ n`. -/
def allRange (f : Nat → Bool) : Nat → Nat → Nat → Bool
  | 0, lo, n => n == 0 || (n == 1 && f lo)
  | fuel + 1, lo, n =>
    if n ≤ 1 then n == 0 || (n == 1 && f lo)
    else allRange f fuel lo (n / 2) && allRange f fuel (lo + n / 2) (n - n / 2)

/-- Soundness of the bounded checker. -/
theorem allRange_spec (f : Nat → Bool) (fuel : Nat) :
    ∀ lo n, allRange f fuel lo n = true →
      ∀ i, lo ≤ i → i < lo + n → f i = true := by
  induction fuel with
  | zero =>
    intro lo n h i h1 h2
    simp only [allRange, Bool.or_eq_true, Bool.and_eq_true, beq_iff_eq] at h
    rcases h with h | ⟨hn1, hf⟩
    · omega
    · have hi : i = lo := by omega
      rw [hi]; exact hf
  | succ m ih =>
    intro lo n h i h1 h2
    rw [allRange] at h
    by_cases hn : n ≤ 1
    · rw [if_pos hn] at h
      simp only [Bool.or_eq_true, Bool.and_eq_true, beq_iff_eq] at h
      rcases h with h | ⟨hn1, hf⟩
      · omega
      · have hi : i = lo := by omega
        rw [hi]; exact hf
    · rw [if_neg hn] at h
      simp only [Bool.and_eq_true] at h
      obtain ⟨hL, hR⟩ := h
      by_cases hi : i < lo + n / 2
      · exact ih lo (n / 2) hL i h1 hi
      · exact ih (lo + n / 2) (n - n / 2) hR i (by omega) (by omega)

/-- The year-boundary check holds on all 400 years of an era. -/
theorem eraEdge_all : allRange eraEdgeOk 10 0 400 = true := by decide

/-- The last day of an era belongs to its last year. -/
theorem yoeOf_top : yoeOf 146096 = 399 := by decide

/-- Propositional form of the year-boundary check. -/
theorem eraEdge (y : Nat) (hy : y < 400) :
    yoeOf (ydOf y) = y ∧ (1 ≤ y → yoeOf (ydOf y - 1) = y - 1) ∧
    ydOf (y + 1) ≤ ydOf y + 366 ∧ ydOf y ≤ 145731 := by
  have h := allRange_spec eraEdgeOk 10 0 400 eraEdge_all y (Nat.zero_le y)
    (by omega)
  simp only [eraEdgeOk, Bool.and_eq_true, Bool.or_eq_true, beq_iff_eq,
    decide_eq_true_eq] at h
  obtain ⟨⟨⟨h1, h2⟩, h3⟩, h4⟩ := h
  refine ⟨h1, ?_, h3, h4⟩
  intro hy1
  rcases h2 with h2 | h2
  · omega
  · exact h2

/-- An era holds 400 years. -/
theorem yoeOf_le_399 (doe : Nat) (h : doe ≤ 146096) : yoeOf doe ≤ 399 := by
  have hm := yoeOf_mono doe 146096 h (le_refl _)
  rw [yoeOf_top] at hm
  exact hm

/-- A day-of-era is never before the start of its computed year. -/
theorem ydOf_yoeOf_le (doe : Nat) (h : doe ≤ 146096) :
    ydOf (yoeOf doe) ≤ doe := by
  by_cases h0 : yoeOf doe = 0
  · rw [h0]
    exact Nat.zero_le doe
  · by_contra hlt
    push_neg at hlt
    have hy400 : yoeOf doe < 400 := by
      have := yoeOf_le_399 doe h
      omega
    have hEdge := eraEdge (yoeOf doe) hy400
    have hbound : ydOf (yoeOf doe) - 1 ≤ 146096 := by
      have := hEdge.2.2.2
      omega
    have hmono := yoeOf_mono doe (ydOf (yoeOf doe) - 1) (by omega) hbound
    rw [hEdge.2.1 (by omega)] at hmono
    omega

/-- A day-of-era is at most 365 days past the start of its computed
year. -/
theorem doy_le_365 (doe : Nat) (h : doe ≤ 146096) :
    doe - ydOf (yoeOf doe) ≤ 365 := by
  have hy399 : yoeOf doe ≤ 399 := yoeOf_le_399 doe h
  by_cases htop : yoeOf doe = 399
  · have h399 : ydOf 399 = 145731 := by decide
    rw [htop, h399]
    omega
  · have hEdge1 := eraEdge (yoeOf doe + 1) (by omega)
    have hlt : doe < ydOf (yoeOf doe + 1) := by
      by_contra hge
      push_neg at hge
      have hb : ydOf (yoeOf doe + 1) ≤ 146096 := by omega
      have hmono := yoeOf_mono (ydOf (yoeOf doe + 1)) doe hge h
      rw [hEdge1.1] at hmono
      omega
    have hEdge := eraEdge (yoeOf doe) (by omega)
    have := hEdge.2.2.1
    omega

/-- Month-extraction bounds within a year: the month index stays below
twelve and the days consumed before the day-of-month never exceed the
day-of-year, leaving a day-of-month of at most 31. -/
theorem mp_facts (doy : Nat) (h : doy ≤ 365) :
    (5 * doy + 2) / 153 ≤ 11 ∧
    (153 * ((5 * doy + 2) / 153) + 2) / 5 ≤ doy ∧
    doy - (153 * ((5 * doy + 2) / 153) + 2) / 5 ≤ 30 := by
  omega

/-- Reconstruction of a day count from the civil components the
days-to-civil direction produces, stated over plain variables. -/
theorem days_reconstruct (E Y doy mp m d : Nat)
    (hY : Y ≤ 399) (hdoy : doy ≤ 365)
    (hmp : mp = (5 * doy + 2) / 153)
    (hm : m = if mp < 10 then mp + 3 else mp - 9)
    (hd : d = doy - (153 * mp + 2) / 5 + 1) :
    daysFromCivil (if m ≤ 2 then Y + E * 400 + 1 else Y + E * 400) m d
      = E * 146097 + (365 * Y + Y / 4 - Y / 100 + doy) - 719468 := by
  have hmp11 : mp ≤ 11 := by subst hmp; omega
  have hr : (153 * mp + 2) / 5 ≤ doy := by subst hmp; omega
  have e1 : (Y + E * 400) / 400 = E := by omega
  have e2 : (Y + E * 400) % 400 = Y := by omega
  unfold daysFromCivil
  dsimp only
  by_cases hc : mp < 10
  · have hm3 : m = mp + 3 := by rw [hm, if_pos hc]
    have h2 : ¬ m ≤ 2 := by omega
    have h3 : m > 2 := by omega
    rw [if_neg h2, if_neg h2, if_pos h3, e1, e2, hm3, Nat.add_sub_cancel, hd]
    omega
  · have hm9 : m = mp - 9 := by rw [hm, if_neg hc]
    have h2 : m ≤ 2 := by omega
    have h3 : ¬ m > 2 := by omega
    rw [if_pos h2, if_pos h2, Nat.add_sub_cancel, if_neg h3, e1, e2, hm9,
        Nat.sub_add_cancel (by omega : 9 ≤ mp), hd]
    omega

/-- The civil conversion round-trips on the day level: converting a day
count to a civil date and back is the identity. -/
theorem daysFromCivil_civilFromDays (z : Nat) :
    daysFromCivil (civilFromDays z).1 (civilFromDays z).2.1
      (civilFromDays z).2.2 = z := by
  have hdoe : (z + 719468) % 146097 ≤ 146096 := by omega
  have h1 := ydOf_yoeOf_le ((z + 719468) % 146097) hdoe
  have h2 := yoeOf_le_399 ((z + 719468) % 146097) hdoe
  have h3 := doy_le_365 ((z + 719468) % 146097) hdoe
  unfold civilFromDays
  dsimp only
  unfold ydOf at h1 h3 ⊢
  rw [days_reconstruct ((z + 719468) / 146097)
        (yoeOf ((z + 719468) % 146097))
        ((z + 719468) % 146097 -
          (365 * yoeOf ((z + 719468) % 146097) +
            yoeOf ((z + 719468) % 146097) / 4 -
            yoeOf ((z + 719468) % 146097) / 100))
        _ _ _ h2 h3 rfl rfl rfl]
  omega

/-- Recomposing hours, minutes, seconds and milliseconds of a day yields
the milliseconds-of-day. -/
theorem msod_recompose (t : Nat) :
    t % 86400000 / 3600000 * 3600000 + t % 86400000 / 60000 % 60 * 60000 +
      t % 86400000 / 1000 % 60 * 1000 + t % 1000 = t % 86400000 := by
  omega

/-- Component ranges of the civil conversion for timestamps up to the
end of year 9999: the year fits in four digits and month and day lie in
their calendar ranges. -/
theorem civil_ranges (z : Nat) (hz : z < 2932897) :
    (civilFromDays z).1 ≤ 9999 ∧
    1 ≤ (civilFromDays z).2.1 ∧ (civilFromDays z).2.1 ≤ 12 ∧
    1 ≤ (civilFromDays z).2.2 ∧ (civilFromDays z).2.2 ≤ 31 := by
  have hdoe : (z + 719468) % 146097 ≤ 146096 := by omega
  have h1 := ydOf_yoeOf_le ((z + 719468) % 146097) hdoe
  have h2 := yoeOf_le_399 ((z + 719468) % 146097) hdoe
  have h3 := doy_le_365 ((z + 719468) % 146097) hdoe
  have h4 := mp_facts ((z + 719468) % 146097 -
    ydOf (yoeOf ((z + 719468) % 146097))) h3
  unfold civilFromDays
  dsimp only
  unfold ydOf at h1 h3 h4 ⊢
  split_ifs <;> omega

/-- Character of a decimal digit. -/
def digitChar (n : Nat) : Char := Char.ofNat (48 + n)

/-- Numeric value of a decimal digit character. -/
def digitVal (c : Char) : Nat := c.toNat - 48

/-- Reading back a printed digit gives the digit. -/
theorem digitVal_digitChar (n : Nat) (h : n < 10) :
    digitVal (digitChar n) = n := by
  interval_cases n <;> decide

/-- Printed digits satisfy the parser's digit test. -/
theorem isDigit_digitChar (n : Nat) (h : n < 10) :
    (digitChar n).isDigit = true := by
  interval_cases n <;> decide

/-- Two-digit zero-padded decimal print. -/
def pad2 (n : Nat) : List Char :=
  [digitChar (n / 10), digitChar (n % 10)]

/-- Three-digit zero-padded decimal print. -/
def pad3 (n : Nat) : List Char :=
  [digitChar (n / 100), digitChar (n / 10 % 10), digitChar (n % 10)]

/-- Four-digit zero-padded decimal print. -/
def pad4 (n : Nat) : List Char :=
  [digitChar (n / 1000), digitChar (n / 100 % 10), digitChar (n / 10 % 10),
   digitChar (n % 10)]

/-- Read a two-digit decimal number, returning it with the remaining
input. -/
def parse2 : List Char → Option (Nat × List Char)
  | c1 :: c2 :: rest =>
    if c1.isDigit && c2.isDigit then
      some (digitVal c1 * 10 + digitVal c2, rest)
    else none
  | _ => none

/-- Read a three-digit decimal number. -/
def parse3 : List Char → Option (Nat × List Char)
  | c1 :: c2 :: c3 :: rest =>
    if c1.isDigit && c2.isDigit && c3.isDigit then
      some (digitVal c1 * 100 + digitVal c2 * 10 + digitVal c3, rest)
    else none
  | _ => none

/-- Read a four-digit decimal number. -/
def parse4 : List Char → Option (Nat × List Char)
  | c1 :: c2 :: c3 :: c4 :: rest =>
    if c1.isDigit && c2.isDigit && c3.isDigit && c4.isDigit then
      some (digitVal c1 * 1000 + digitVal c2 * 100 + digitVal c3 * 10 +
        digitVal c4, rest)
    else none
  | _ => none

/-- Require one literal character of the input. -/
def expect (e : Char) : List Char → Option (List Char)
  | c :: rest => if c == e then some rest else none
  | _ => none

/-- Reading back a two-digit print yields the number. -/
theorem parse2_pad2 (n : Nat) (h : n < 100) (rest : List Char) :
    parse2 (pad2 n ++ rest) = some (n, rest) := by
  simp only [pad2, List.cons_append, List.nil_append, parse2,
    isDigit_digitChar (n / 10) (by omega), isDigit_digitChar (n % 10) (by omega),
    Bool.and_self, if_pos,
    digitVal_digitChar (n / 10) (by omega), digitVal_digitChar (n % 10) (by omega)]
  have hn : n / 10 * 10 + n % 10 = n := by omega
  rw [hn]

/-- Reading back a three-digit print yields the number. -/
theorem parse3_pad3 (n : Nat) (h : n < 1000) (rest : List Char) :
    parse3 (pad3 n ++ rest) = some (n, rest) := by
  simp only [pad3, List.cons_append, List.nil_append, parse3,
    isDigit_digitChar (n / 100) (by omega),
    isDigit_digitChar (n / 10 % 10) (by omega),
    isDigit_digitChar (n % 10) (by omega), Bool.and_self, if_pos,
    digitVal_digitChar (n / 100) (by omega),
    digitVal_digitChar (n / 10 % 10) (by omega),
    digitVal_digitChar (n % 10) (by omega)]
  have hn : n / 100 * 100 + n / 10 % 10 * 10 + n % 10 = n := by omega
  rw [hn]

/-- Reading back a four-digit print yields the number. -/
theorem parse4_pad4 (n : Nat) (h : n < 10000) (rest : List Char) :
    parse4 (pad4 n ++ rest) = some (n, rest) := by
  simp only [pad4, List.cons_append, List.nil_append, parse4,
    isDigit_digitChar (n / 1000) (by omega),
    isDigit_digitChar (n / 100 % 10) (by omega),
    isDigit_digitChar (n / 10 % 10) (by omega),
    isDigit_digitChar (n % 10) (by omega), Bool.and_self, if_pos,
    digitVal_digitChar (n / 1000) (by omega),
    digitVal_digitChar (n / 100 % 10) (by omega),
    digitVal_digitChar (n / 10 % 10) (by omega),
    digitVal_digitChar (n % 10) (by omega)]
  have hn : n / 1000 * 1000 + n / 100 % 10 * 100 + n / 10 % 10 * 10 + n % 10
      = n := by omega
  rw [hn]

/-- The literal-character requirement accepts its character. -/
theorem expect_cons (e : Char) (rest : List Char) :
    expect e (e :: rest) = some rest := by
  simp [expect]

/-- Model of `Date.prototype.toISOString` on nonnegative millisecond
timestamps with four-digit years: the character sequence
`YYYY-MM-DDTHH:mm:ss.sssZ`. -/
def toISOChars (t : Nat) : List Char :=
  let days := t / 86400000
  let msod := t % 86400000
  let c := civilFromDays days
  pad4 c.1 ++ ('-' :: (pad2 c.2.1 ++ ('-' :: (pad2 c.2.2 ++
    ('T' :: (pad2 (msod / 3600000) ++ (':' :: (pad2 (msod / 60000 % 60) ++
    (':' :: (pad2 (msod / 1000 % 60) ++ ('.' :: (pad3 (msod % 1000) ++
    ['Z']))))))))))))

/-- Model of ECMAScript `Date` parsing of the `YYYY-MM-DDTHH:mm:ss.sssZ`
date-time layout: digits and separators are checked, component ranges
are checked, and the UTC millisecond value is recomposed; anything else
is an invalid date (`none`). -/
def parseISOChars (cs : List Char) : Option Nat :=
  match parse4 cs with
  | none => none
  | some (y, cs) =>
  match expect '-' cs with
  | none => none
  | some cs =>
  match parse2 cs with
  | none => none
  | some (mo, cs) =>
  match expect '-' cs with
  | none => none
  | some cs =>
  match parse2 cs with
  | none => none
  | some (d, cs) =>
  match expect 'T' cs with
  | none => none
  | some cs =>
  match parse2 cs with
  | none => none
  | some (hh, cs) =>
  match expect ':' cs with
  | none => none
  | some cs =>
  match parse2 cs with
  | none => none
  | some (mi, cs) =>
  match expect ':' cs with
  | none => none
  | some cs =>
  match parse2 cs with
  | none => none
  | some (ss, cs) =>
  match expect '.' cs with
  | none => none
  | some cs =>
  match parse3 cs with
  | none => none
  | some (ms, cs) =>
  match expect 'Z' cs with
  | none => none
  | some cs =>
  if cs = [] ∧ 1 ≤ mo ∧ mo ≤ 12 ∧ 1 ≤ d ∧ d ≤ 31 ∧ hh ≤ 23 ∧ mi ≤ 59 ∧
      ss ≤ 59 then
    some (daysFromCivil y mo d * 86400000 + hh * 3600000 + mi * 60000 +
      ss * 1000 + ms)
  else none

/-- Parsing a printed date-time with in-range components recomposes the
corresponding millisecond value. -/
theorem parse_format (y mo d hh mi ss ms : Nat)
    (hy : y < 10000) (hmo1 : 1 ≤ mo) (hmo2 : mo ≤ 12)
    (hd1 : 1 ≤ d) (hd2 : d ≤ 31) (hhh : hh ≤ 23) (hmi : mi ≤ 59)
    (hss : ss ≤ 59) (hms : ms < 1000) :
    parseISOChars (pad4 y ++ ('-' :: (pad2 mo ++ ('-' :: (pad2 d ++
      ('T' :: (pad2 hh ++ (':' :: (pad2 mi ++ (':' :: (pad2 ss ++
      ('.' :: (pad3 ms ++ ['Z'])))))))))))))
      = some (daysFromCivil y mo d * 86400000 + hh * 3600000 + mi * 60000 +
          ss * 1000 + ms) := by
  unfold parseISOChars
  rw [parse4_pad4 y hy]
  dsimp only
  rw [expect_cons]
  dsimp only
  rw [parse2_pad2 mo (by omega)]
  dsimp only
  rw [expect_cons]
  dsimp only
  rw [parse2_pad2 d (by omega)]
  dsimp only
  rw [expect_cons]
  dsimp only
  rw [parse2_pad2 hh (by omega)]
  dsimp only
  rw [expect_cons]
  dsimp only
  rw [parse2_pad2 mi (by omega)]
  dsimp only
  rw [expect_cons]
  dsimp only
  rw [parse2_pad2 ss (by omega)]
  dsimp only
  rw [expect_cons]
  dsimp only
  rw [parse3_pad3 ms hms]
  dsimp only
  rw [expect_cons]
  dsimp only
  rw [if_pos ⟨rfl, hmo1, hmo2, hd1, hd2, hhh, hmi, hss⟩]

/-- Printing a millisecond timestamp as ISO-8601 text and parsing it
back is the identity, for timestamps from the epoch up to the end of the
year 9999. -/
theorem parseISO_toISO (t : Nat) (ht : t < 253402300800000) :
    parseISOChars (toISOChars t) = some t := by
  have hdays : t / 86400000 < 2932897 := by omega
  obtain ⟨hy, hm1, hm2, hd1, hd2⟩ := civil_ranges (t / 86400000) hdays
  unfold toISOChars
  dsimp only
  rw [parse_format (civilFromDays (t / 86400000)).1
        (civilFromDays (t / 86400000)).2.1 (civilFromDays (t / 86400000)).2.2
        (t % 86400000 / 3600000) (t % 86400000 / 60000 % 60)
        (t % 86400000 / 1000 % 60) (t % 86400000 % 1000)
        (by omega) hm1 hm2 hd1 hd2 (by omega) (by omega) (by omega) (by omega),
      daysFromCivil_civilFromDays (t / 86400000)]
  congr 1
  omega

/-- ISO-8601 serialization of a timestamp as a string
(`Date.prototype.toISOString`). -/
def toISOString (t : Nat) : String := String.mk (toISOChars t)

/-- Millisecond value recovered from an ISO-8601 string
(`new Date(s).getTime()`), or `none` for an invalid date. -/
def parseISO (s : String) : Option Nat := parseISOChars s.data

/-- The five-field JSON object carried inside the QR image, with the two
timestamps as ISO-8601 strings — the wire form `generateQRData` builds
with `JSON.stringify` and `toISOString`. -/
structure WirePayload where
  courseId : String
  courseCode : String
  courseName : String
  generatedAt : String
  expiresAt : String
deriving Repr, DecidableEq

/-- Encoding of a generated payload onto the wire: the three course
strings pass through `JSON.stringify` unchanged and the two `Date`
values are serialized with `toISOString`. -/
def encodeQRPayload (p : QRPayload) : WirePayload :=
  { courseId := p.courseId
    courseCode := p.courseCode
    courseName := p.courseName
    generatedAt := toISOString p.generatedAt.toNat
    expiresAt := toISOString p.expiresAt.toNat }

/-- Decoding of a wire payload on the student device: `JSON.parse`
recovers the three strings unchanged and `new Date(...)` parses the two
timestamps; an invalid timestamp makes the payload undecodable. -/
def decodeWirePayload (w : WirePayload) : Option QRPayload :=
  match parseISO w.generatedAt, parseISO w.expiresAt with
  | some g, some e =>
    some { courseId := w.courseId
           courseCode := w.courseCode
           courseName := w.courseName
           generatedAt := (g : Int)
           expiresAt := (e : Int) }
  | _, _ => none

/-- Computation of the decoder when both timestamp fields parse. -/
theorem decodeWirePayload_eq (w : WirePayload) (g e : Nat)
    (hg : parseISO w.generatedAt = some g)
    (he : parseISO w.expiresAt = some e) :
    decodeWirePayload w = some { courseId := w.courseId
                                 courseCode := w.courseCode
                                 courseName := w.courseName
                                 generatedAt := (g : Int)
                                 expiresAt := (e : Int) } := by
  unfold decodeWirePayload
  rw [hg, he]

/-- C7: encoding a token payload to the QR wire format and decoding the
result is the identity on all five fields, with no loss of precision on
the ISO-8601 timestamps — for timestamps between the epoch and the end
of year 9999, the domain on which `toISOString` prints four-digit
years. -/
theorem encode_decode_roundtrip (p : QRPayload)
    (hg0 : 0 ≤ p.generatedAt) (hg1 : p.generatedAt < 253402300800000)
    (he0 : 0 ≤ p.expiresAt) (he1 : p.expiresAt < 253402300800000) :
    decodeWirePayload (encodeQRPayload p) = some p := by
  obtain ⟨cid, cc, cn, g, e⟩ := p
  simp only at hg0 hg1 he0 he1
  have h1 : parseISO (encodeQRPayload ⟨cid, cc, cn, g, e⟩).generatedAt
      = some g.toNat := parseISO_toISO g.toNat (by omega)
  have h2 : parseISO (encodeQRPayload ⟨cid, cc, cn, g, e⟩).expiresAt
      = some e.toNat := parseISO_toISO e.toNat (by omega)
  rw [decodeWirePayload_eq (encodeQRPayload ⟨cid, cc, cn, g, e⟩)
        g.toNat e.toNat h1 h2]
  dsimp only [encodeQRPayload]
  rw [Int.toNat_of_nonneg hg0, Int.toNat_of_nonneg he0]

/-- Witness for C7: the payload minted for `courseA` at a concrete 2023
device instant decodes from its own wire form unchanged. -/
theorem encode_decode_roundtrip_witness :
    decodeWirePayload (encodeQRPayload (generateQRData courseA 1700000000000))
      = some (generateQRData courseA 1700000000000) :=
  encode_decode_roundtrip (generateQRData courseA 1700000000000)
    (by decide) (by decide) (by decide) (by decide)
